import Mathlib

/-!
Verification of the triage core of the `triage-guardian` repository.

The embedded code lives in the `TriageSystem` component
(`src/tailwind.config.ts`, second document: `calculatePriority`,
`handleSubmitTriage`, `onUpdatePatient`) and in `PatientQueue.tsx`
(`handleStatusUpdate`).  JavaScript numbers are modelled as `ℚ`
(all the arithmetic here is exact decimal arithmetic on small values),
`NaN`-producing parses as `Option` (a `NaN` heart rate or temperature is
falsy in the `if (heartRate && ...)` guards, exactly like an absent one,
and a `NaN` blood-pressure part makes every range comparison false, which
`nanGE`/`nanLT` reproduce).  `Array.prototype.sort` is a stable sort; a
stable sort's output is uniquely determined by the comparator and the
input order, so it is modelled by `List.insertionSort`, which is stable.
-/

namespace Triage

/-- Lifecycle status of a patient record (`Patient['status']`). -/
inductive Status where
  | waiting
  | inProgress
  | completed
deriving DecidableEq, Repr

/-- The `statusOrder` table used by the queue comparator:
`{ waiting: 1, 'in-progress': 2, completed: 3 }`. -/
def statusOrder : Status → ℤ
  | .waiting => 1
  | .inProgress => 2
  | .completed => 3

/-- The nine-field symptom vector (`Patient['symptoms']`). -/
structure Symptoms where
  painLevel : ℚ
  breathingDifficulty : ℚ
  consciousnessLevel : ℚ
  headache : ℚ
  confusion : ℚ
  chestPain : ℚ
  palpitations : ℚ
  bleeding : ℚ
  nausea : ℚ
deriving DecidableEq, Repr

/-- Normalized vitals (`Patient['vitals']` after the string-to-number
coercions at the top of `calculatePriority`): a failed `parseInt` /
`parseFloat` yields `NaN`, which behaves as absent under the truthiness
guards, so it is modelled as `none`. -/
structure Vitals where
  heartRate : Option ℚ
  bloodPressure : Option String
  temperature : Option ℚ
deriving DecidableEq, Repr

/-- A patient record (the `Patient` interface). -/
structure Patient where
  id : String
  name : String
  age : ℤ
  gender : String
  insuranceType : String
  emergencyContact : String
  symptoms : Symptoms
  vitals : Vitals
  priority : ℤ
  arrivalTime : ℤ
  estimatedWaitTime : ℤ
  chiefComplaint : String
  status : Status
deriving DecidableEq, Repr

/-! ## Severity Normalizer: blood-pressure parsing

`vitals.bloodPressure.split(/[\/\-]/).map(p => parseInt(p.trim(), 10))`. -/

/-- JavaScript `String.prototype.split` on the character class `[/\-]`,
on the character list of the string.  `""` splits to `[""]`, a trailing
separator produces a trailing empty part, exactly as in JavaScript. -/
def splitOnSep : List Char → List (List Char)
  | [] => [[]]
  | c :: rest =>
    if c = '/' ∨ c = '-' then [] :: splitOnSep rest
    else
      match splitOnSep rest with
      | [] => [[c]]
      | p :: ps => (c :: p) :: ps

/-- `String.prototype.trim`: drop whitespace from both ends. -/
def trimChars (cs : List Char) : List Char :=
  ((cs.dropWhile (·.isWhitespace)).reverse.dropWhile (·.isWhitespace)).reverse

/-- Accumulate the leading run of decimal digits; `none` when there is
no leading digit (JavaScript `parseInt` returns `NaN` then). -/
def parseDigits (cs : List Char) : Option ℕ :=
  let ds := cs.takeWhile (fun c => c.isDigit)
  if ds.isEmpty then none
  else some (ds.foldl (fun acc c => 10 * acc + (c.toNat - 48)) 0)

/-- JavaScript `parseInt(s, 10)` on an already-trimmed string: optional
sign, then the leading digit run; `NaN` (here `none`) when no digits. -/
def jsParseInt (cs : List Char) : Option ℤ :=
  match cs with
  | '-' :: rest => (parseDigits rest).map (fun n => -(n : ℤ))
  | '+' :: rest => (parseDigits rest).map (fun n => (n : ℤ))
  | _ => (parseDigits cs).map (fun n => (n : ℤ))

/-- `x >= b` where `x` may be `NaN` (`none`): a comparison with `NaN` is
false in JavaScript. -/
def nanGE : Option ℤ → ℤ → Bool
  | some v, b => decide (v ≥ b)
  | none, _ => false

/-- `x < b` where `x` may be `NaN` (`none`). -/
def nanLT : Option ℤ → ℤ → Bool
  | some v, b => decide (v < b)
  | none, _ => false

/-- The blood-pressure modifier body applied to the first two parts
(`const [sys, dia] = parts`):
`if (sys >= 180 || dia >= 120) modifiers += 6; else if (sys >= 160 || dia >= 100) modifiers += 3;`
then independently `if (sys < 85 || dia < 55) modifiers += 5;`. -/
def bpPartsModifier (sys dia : Option ℤ) : ℚ :=
  (if nanGE sys 180 || nanGE dia 120 then 6
   else if nanGE sys 160 || nanGE dia 100 then 3 else 0)
  + (if nanLT sys 85 || nanLT dia 55 then 5 else 0)

/-- The split-and-parse pipeline of `calculatePriority`'s blood-pressure
branch, producing the `parts` array (`none` entries are `NaN`). -/
def bpParts (s : String) : List (Option ℤ) :=
  (splitOnSep s.data).map (fun p => jsParseInt (trimChars p))

/-- `calculatePriority`'s blood-pressure modifier for a present (truthy)
blood-pressure string: guarded by `parts.length >= 2`. -/
def bpModifierStr (s : String) : ℚ :=
  match bpParts s with
  | sys :: dia :: _ => bpPartsModifier sys dia
  | _ => 0

/-- The whole blood-pressure branch: `if (vitals.bloodPressure) { ... }`;
the empty string is falsy in JavaScript. -/
def bpModifier : Option String → ℚ
  | none => 0
  | some s => if s = "" then 0 else bpModifierStr s

/-! ## Priority Scorer (`calculatePriority`) -/

/-- The weighted base symptom severity score (the `score` constant). -/
def baseScore (s : Symptoms) : ℚ :=
  s.breathingDifficulty * 2 +
  s.chestPain * 2 +
  s.consciousnessLevel * 2 +
  s.bleeding * 1.5 +
  s.painLevel +
  s.palpitations +
  s.confusion +
  s.headache * 0.5 +
  s.nausea * 0.5

/-- Heart-rate modifier:
`if (heartRate && (heartRate < 45 || heartRate > 130)) modifiers += 8;
else if (heartRate && (heartRate < 55 || heartRate > 110)) modifiers += 4;`.
The truthiness guard makes a heart rate of `0` (or `NaN`, i.e. `none`)
contribute nothing. -/
def hrModifier : Option ℚ → ℚ
  | none => 0
  | some h =>
    if h ≠ 0 ∧ (h < 45 ∨ h > 130) then 8
    else if h ≠ 0 ∧ (h < 55 ∨ h > 110) then 4
    else 0

/-- Temperature modifier:
`if (temperature && temperature >= 103) modifiers += 4;
else if (temperature && temperature >= 101.5) modifiers += 2;`. -/
def tempModifier : Option ℚ → ℚ
  | none => 0
  | some t =>
    if t ≠ 0 ∧ t ≥ 103 then 4
    else if t ≠ 0 ∧ t ≥ 101.5 then 2
    else 0

/-- The accumulated vital-sign `modifiers`. -/
def modifiers (v : Vitals) : ℚ :=
  hrModifier v.heartRate + tempModifier v.temperature + bpModifier v.bloodPressure

/-- `const total = score + modifiers`. -/
def totalScore (s : Symptoms) (v : Vitals) : ℚ :=
  baseScore s + modifiers v

/-- The threshold ladder at the end of `calculatePriority`. -/
def tierOf (total : ℚ) : ℤ :=
  if total ≥ 55 then 1
  else if total ≥ 35 then 2
  else if total ≥ 20 then 3
  else if total ≥ 10 then 4
  else 5

/-- `calculatePriority(symptoms, vitals)`. -/
def calculatePriority (s : Symptoms) (v : Vitals) : ℤ :=
  tierOf (totalScore s v)

/-- The all-zero symptom vector (the reset-form default). -/
def zeroSymptoms : Symptoms :=
  ⟨0, 0, 0, 0, 0, 0, 0, 0, 0⟩

/-- Vitals with every field absent. -/
def noVitals : Vitals :=
  ⟨none, none, none⟩

/-! ## Queue Store

The comparator passed to `.sort` in `handleSubmitTriage` and
`onUpdatePatient`:
`if (statusOrder[a.status] !== statusOrder[b.status]) return statusOrder[a.status] - statusOrder[b.status]; return a.priority - b.priority;`
An element `a` may stay before `b` exactly when the comparator is `≤ 0`. -/
def QLe (a b : Patient) : Prop :=
  statusOrder a.status < statusOrder b.status ∨
    (statusOrder a.status = statusOrder b.status ∧ a.priority ≤ b.priority)

instance : DecidableRel QLe := fun _a _b =>
  inferInstanceAs (Decidable (_ ∨ _ ∧ _))

instance : IsTotal Patient QLe :=
  ⟨by intro a b; unfold QLe; omega⟩

instance : IsTrans Patient QLe :=
  ⟨by intro a b c; unfold QLe; omega⟩

/-- `Array.prototype.sort` with the queue comparator.  JavaScript's sort
is stable, and a stable sort's output is uniquely determined by the
comparator and the input order, so insertion sort models it exactly. -/
def sortQueue (l : List Patient) : List Patient :=
  List.insertionSort QLe l

/-- `setPatients(prev => [...prev, newPatient].sort(...))` in
`handleSubmitTriage`. -/
def insertOp (l : List Patient) (p : Patient) : List Patient :=
  sortQueue (l ++ [p])

/-- `p.id === id ? { ...p, status } : p` inside `onUpdatePatient`. -/
def setStatus (id : String) (st : Status) (p : Patient) : Patient :=
  if p.id = id then { p with status := st } else p

/-- `setPatients(prev => prev.map(p => p.id === id ? { ...p, status } : p).sort(...))`
in `onUpdatePatient`. -/
def updateOp (l : List Patient) (id : String) (st : Status) : List Patient :=
  sortQueue (l.map (setStatus id st))

/-- A record with the fields that matter to the queue; the remaining
fields are inert defaults. -/
def samplePatient (id : String) (priority arrival : ℤ) (st : Status) : Patient :=
  ⟨id, "", 0, "", "", "", zeroSymptoms, noVitals, priority, arrival, 0, "", st⟩

/-! ### Stability: sorting preserves `Pairwise` relations that cannot
distinguish comparator ties -/

theorem pairwise_orderedInsert_of {α : Type} {r : α → α → Prop} [DecidableRel r]
    {R : α → α → Prop} (compat : ∀ a x, R a x → ¬ r a x → R x a) (a : α) :
    ∀ m : List α, m.Pairwise R → (∀ x ∈ m, R a x) →
      (List.orderedInsert r a m).Pairwise R := by
  intro m
  induction m with
  | nil => intro _ _; simp
  | cons b m ih =>
    intro hp ha
    by_cases h : r a b
    · have heq : List.orderedInsert r a (b :: m) = a :: b :: m := by
        simp [List.orderedInsert, h]
      rw [heq]
      exact List.Pairwise.cons ha hp
    · have hne : List.orderedInsert r a (b :: m) = b :: List.orderedInsert r a m := by
        simp [List.orderedInsert, h]
      rw [hne]
      refine List.Pairwise.cons ?_ (ih (List.Pairwise.of_cons hp) ?_)
      · intro y hy
        rcases (List.mem_orderedInsert r).mp hy with hya | hym
        · rw [hya]
          exact compat a b (ha b (List.mem_cons_self b m)) h
        · exact List.rel_of_pairwise_cons hp hym
      · intro x hx
        exact ha x (List.mem_cons_of_mem b hx)

theorem pairwise_insertionSort_of {α : Type} {r : α → α → Prop} [DecidableRel r]
    {R : α → α → Prop} (compat : ∀ a x, R a x → ¬ r a x → R x a) :
    ∀ l : List α, l.Pairwise R → (List.insertionSort r l).Pairwise R := by
  intro l
  induction l with
  | nil => intro _; simp
  | cons a l ih =>
    intro hp
    refine pairwise_orderedInsert_of compat a _ (ih (List.Pairwise.of_cons hp)) ?_
    intro x hx
    exact List.rel_of_pairwise_cons hp ((List.mem_insertionSort r).mp hx)

/-- Two waiting records with the same tier appear in ascending arrival
order. -/
def ArrivalTie (a b : Patient) : Prop :=
  a.status = Status.waiting → b.status = Status.waiting →
    a.priority = b.priority → a.arrivalTime ≤ b.arrivalTime

theorem arrivalTie_compat : ∀ a x : Patient, ArrivalTie a x → ¬ QLe a x → ArrivalTie x a := by
  intro a x _ hnr hxw haw hpx
  exfalso
  apply hnr
  right
  refine ⟨by rw [haw, hxw], le_of_eq hpx.symm⟩

theorem sortQueue_arrivalTie {l : List Patient} (h : l.Pairwise ArrivalTie) :
    (sortQueue l).Pairwise ArrivalTie :=
  pairwise_insertionSort_of arrivalTie_compat l h

/-- The queue states reachable from the empty queue through the two
mutating operations of the source: an intake (`handleSubmitTriage`
appends the new record with status `waiting` and an arrival time taken
from the clock, hence no earlier than every arrival already queued) and
a status update (`handleStatusUpdate` in `PatientQueue.tsx` only issues
the forward transitions offered by the buttons — `waiting → in-progress`
on a waiting record and `in-progress → completed` on an in-progress
record — so the target status never precedes the record's current one). -/
inductive Reach : List Patient → Prop where
  | nil : Reach []
  | insert {l : List Patient} (p : Patient) : Reach l → p.status = Status.waiting →
      (∀ q ∈ l, q.arrivalTime ≤ p.arrivalTime) → Reach (insertOp l p)
  | update {l : List Patient} (id : String) (st : Status) : Reach l →
      (∀ p ∈ l, p.id = id → statusOrder p.status ≤ statusOrder st) →
      Reach (updateOp l id st)

theorem setStatus_priority (id : String) (st : Status) (p : Patient) :
    (setStatus id st p).priority = p.priority := by
  unfold setStatus; split <;> rfl

theorem setStatus_arrivalTime (id : String) (st : Status) (p : Patient) :
    (setStatus id st p).arrivalTime = p.arrivalTime := by
  unfold setStatus; split <;> rfl

theorem setStatus_waiting {id : String} {st : Status} {p : Patient}
    (hguard : p.id = id → statusOrder p.status ≤ statusOrder st)
    (hw : (setStatus id st p).status = Status.waiting) :
    p.status = Status.waiting := by
  unfold setStatus at hw
  split at hw
  · rename_i hid
    have hle := hguard hid
    simp only at hw
    rw [hw] at hle
    cases hp : p.status <;> rw [hp] at hle <;> simp [statusOrder] at hle ⊢
  · exact hw

theorem reach_arrivalTie {l : List Patient} (h : Reach l) : l.Pairwise ArrivalTie := by
  induction h with
  | nil => exact List.Pairwise.nil
  | insert p _ hw harr ih =>
    apply sortQueue_arrivalTie
    rw [List.pairwise_append]
    refine ⟨ih, List.pairwise_singleton _ _, ?_⟩
    intro a ha b hb
    rw [List.mem_singleton] at hb
    subst hb
    intro _ _ _
    exact harr a ha
  | update id st _ hguard ih =>
    apply sortQueue_arrivalTie
    rw [List.pairwise_map]
    refine ih.imp_of_mem ?_
    intro a b ha hb hR hwa hwb hpeq
    rw [setStatus_arrivalTime, setStatus_arrivalTime]
    rw [setStatus_priority, setStatus_priority] at hpeq
    exact hR (setStatus_waiting (fun hid => hguard a ha hid) hwa)
      (setStatus_waiting (fun hid => hguard b hb hid) hwb) hpeq

/-! ## Spec-side definitions for the refinement claim C1 -/

/-- The weighted base severity score as the spec words it (§4.2 step 1):
"breathingDifficulty ×2, chestPain ×2, consciousnessLevel ×2,
bleeding ×1.5, painLevel ×1, palpitations ×1, confusion ×1,
headache ×0.5, nausea ×0.5. Sum of (field value × weight)." -/
def specBase (s : Symptoms) : ℚ :=
  s.breathingDifficulty * 2 + s.chestPain * 2 + s.consciousnessLevel * 2 +
    s.bleeding * 1.5 + s.painLevel * 1 + s.palpitations * 1 + s.confusion * 1 +
    s.headache * 0.5 + s.nausea * 0.5

/-- The tier ladder as the spec words it (§4.2 step 4): inclusive
descending thresholds, first match wins. -/
def specTier (total : ℚ) : ℤ :=
  if total ≥ 55 then 1
  else if total ≥ 35 then 2
  else if total ≥ 20 then 3
  else if total ≥ 10 then 4
  else 5

/-! ## Lifecycle Controller -/

inductive TransitionError where
  | notFound
  | invalidTransition
deriving DecidableEq, Repr

/-- Modelled from the spec: the Lifecycle Controller operation
`transition(id, target)` of §4.4 — "Fails with NotFound if id absent
from the Queue Store. Fails with InvalidTransition if target precedes
current state in the ordering waiting<in-progress<completed."  The code
under src only contains this operation's caller (`handleStatusUpdate`
in `PatientQueue.tsx`, which PUTs to `/api/patients/:id` and leaves the
local queue untouched when the request fails) and the success path
(`onUpdatePatient`, embedded here as `updateOp`); the server that
validates the id and the transition is not part of src.  Returns the
error (if any) together with the resulting queue. -/
def transition (l : List Patient) (id : String) (target : Status) :
    Option TransitionError × List Patient :=
  match l.find? (fun p => p.id == id) with
  | none => (some .notFound, l)
  | some p =>
    if statusOrder target < statusOrder p.status then (some .invalidTransition, l)
    else (none, updateOp l id target)

/-! ## Intake (`CreateTriage`) -/

inductive ValidationError where
  | missingRequired
  | ageOutOfRange
  | symptomOutOfRange
deriving DecidableEq, Repr

/-- An intake request: the fields of `formData` that reach
`newPatientData`, with the age already numeric. -/
structure TriageRequest where
  name : String
  age : ℤ
  gender : String
  insuranceType : String
  emergencyContact : String
  symptoms : Symptoms
  vitals : Vitals
  chiefComplaint : String
deriving DecidableEq, Repr

/-- Modelled from the spec: "symptom fields in [0,10] if provided" (§6);
a "malformed symptom value outside [0,10]" is a ValidationError (§7).
The request form always supplies all nine fields (unspecified ones
default to 0), so all nine are checked. -/
def symptomsInRange (s : Symptoms) : Prop :=
  (0 ≤ s.painLevel ∧ s.painLevel ≤ 10) ∧
  (0 ≤ s.breathingDifficulty ∧ s.breathingDifficulty ≤ 10) ∧
  (0 ≤ s.consciousnessLevel ∧ s.consciousnessLevel ≤ 10) ∧
  (0 ≤ s.headache ∧ s.headache ≤ 10) ∧
  (0 ≤ s.confusion ∧ s.confusion ≤ 10) ∧
  (0 ≤ s.chestPain ∧ s.chestPain ≤ 10) ∧
  (0 ≤ s.palpitations ∧ s.palpitations ≤ 10) ∧
  (0 ≤ s.bleeding ∧ s.bleeding ≤ 10) ∧
  (0 ≤ s.nausea ∧ s.nausea ≤ 10)

instance (s : Symptoms) : Decidable (symptomsInRange s) := by
  unfold symptomsInRange
  infer_instance

/-- Modelled from the spec: the `CreateTriage` operation of §6 —
"requires name, age, gender, chiefComplaint non-empty; age in [0,120];
symptom fields in [0,10] if provided".  The empty-required-field guard
mirrors `handleSubmitTriage`
(`if (!formData.name || !formData.age || !formData.gender || !formData.chiefComplaint) ... return;`);
the age range [0,120] is declared in src only as the form constraints on
the age input, and the code enforcing it and the symptom range (browser
form validation / the `/api/patients` server) is not under src, so those
checks are modelled from the spec.  On success the record is built as
`newPatientData` is, with status `waiting`, the priority computed by the
scorer, and identifier and arrival time supplied by the collaborators
(§6). -/
def createTriage (req : TriageRequest) (id : String) (arrival : ℤ) :
    Except ValidationError Patient :=
  if req.name = "" ∨ req.gender = "" ∨ req.chiefComplaint = "" then
    .error .missingRequired
  else if req.age < 0 ∨ 120 < req.age then
    .error .ageOutOfRange
  else if ¬ symptomsInRange req.symptoms then
    .error .symptomOutOfRange
  else
    .ok
      { id := id
        name := req.name
        age := req.age
        gender := req.gender
        insuranceType := req.insuranceType
        emergencyContact := req.emergencyContact
        symptoms := req.symptoms
        vitals := req.vitals
        priority := calculatePriority req.symptoms req.vitals
        arrivalTime := arrival
        estimatedWaitTime := 0
        chiefComplaint := req.chiefComplaint
        status := .waiting }

/-- A well-formed request at a given age, for concrete checks. -/
def sampleRequest (a : ℤ) : TriageRequest :=
  ⟨"Alex", a, "female", "private", "", zeroSymptoms, noVitals, "chest pain"⟩

/-- A request with every required field populated and the age in range,
but a symptom value outside [0,10]. -/
def badSymptomRequest : TriageRequest :=
  ⟨"Alex", 30, "female", "private", "", { zeroSymptoms with painLevel := 11 },
    noVitals, "chest pain"⟩

end Triage
namespace Triage

/-- Claim C1: the scorer computes the weighted base severity score with
the spec's exact weights, adds the vital-sign modifiers, and maps the
total through the inclusive descending threshold ladder 55/35/20/10
(first match wins); an all-zero symptom vector with no vitals yields
tier 5, and breathingDifficulty = 10 alone yields total 20 and tier 3. -/
theorem scorer_weights_and_thresholds :
    (∀ (s : Symptoms) (v : Vitals), calculatePriority s v = specTier (totalScore s v)) ∧
    (∀ s : Symptoms, totalScore s noVitals = specBase s) ∧
    calculatePriority zeroSymptoms noVitals = 5 ∧
    totalScore { zeroSymptoms with breathingDifficulty := 10 } noVitals = 20 ∧
    calculatePriority { zeroSymptoms with breathingDifficulty := 10 } noVitals = 3 := by
  refine ⟨fun s v => rfl, fun s => ?_, ?_, ?_, ?_⟩
  · simp [totalScore, baseScore, specBase, modifiers, noVitals, hrModifier,
      tempModifier, bpModifier]
  · norm_num [calculatePriority, totalScore, baseScore, zeroSymptoms, modifiers,
      noVitals, hrModifier, tempModifier, bpModifier, tierOf]
  · norm_num [totalScore, baseScore, zeroSymptoms, modifiers, noVitals,
      hrModifier, tempModifier, bpModifier]
  · norm_num [calculatePriority, totalScore, baseScore, zeroSymptoms, modifiers,
      noVitals, hrModifier, tempModifier, bpModifier, tierOf]

/-- Claim C2: after an insert or a status update the queue is ordered
with lifecycle rank (waiting=1, in-progress=2, completed=3) as the
primary key and priorityTier ascending as the secondary key; in the
spec's example the two waiting records come first, the tier-1 waiting
record before the tier-3 one, the completed record last. -/
theorem queue_sorted_after_ops :
    (∀ (l : List Patient) (p : Patient), (insertOp l p).Pairwise QLe) ∧
    (∀ (l : List Patient) (id : String) (st : Status), (updateOp l id st).Pairwise QLe) ∧
    insertOp [samplePatient "c" 1 0 .completed, samplePatient "w3" 3 1 .waiting]
        (samplePatient "w1" 1 2 .waiting) =
      [samplePatient "w1" 1 2 .waiting, samplePatient "w3" 3 1 .waiting,
        samplePatient "c" 1 0 .completed] := by
  refine ⟨fun l p => List.sorted_insertionSort QLe _,
    fun l id st => List.sorted_insertionSort QLe _, by decide⟩

/-- Claim C3: in every queue state reachable through inserts and
(forward) status updates, two records that are both waiting with the
same priority tier appear in ascending arrivalTime order. -/
theorem reachable_queue_arrival_tiebreak :
    ∀ l : List Patient, Reach l →
      l.Pairwise (fun a b => a.status = Status.waiting → b.status = Status.waiting →
        a.priority = b.priority → a.arrivalTime ≤ b.arrivalTime) :=
  fun _ h => reach_arrivalTie h

/-- Witness for C3 at a concrete reachable state: two same-tier waiting
records inserted in arrival order. -/
theorem reachable_queue_arrival_tiebreak_witness :
    (insertOp (insertOp [] (samplePatient "a" 2 0 .waiting))
        (samplePatient "b" 2 1 .waiting)).Pairwise
      (fun a b => a.status = Status.waiting → b.status = Status.waiting →
        a.priority = b.priority → a.arrivalTime ≤ b.arrivalTime) :=
  reachable_queue_arrival_tiebreak _
    (Reach.insert _ (Reach.insert _ Reach.nil rfl (by simp)) rfl (by decide))

/-- Counterexample to C4 as stated: a present heart rate of exactly 0 is
below 45, yet the truthiness guard suppresses the +8 modifier. -/
theorem hr_severe_claim_false :
    ¬ (∀ h : ℚ, h < 45 ∨ h > 130 → hrModifier (some h) = 8) := by
  intro hclaim
  have h0 : hrModifier (some 0) = 0 := by norm_num [hrModifier]
  have h8 := hclaim 0 (Or.inl (by norm_num))
  rw [h0] at h8
  norm_num at h8

/-- Claim C4 (amended: heart rate present and nonzero): +8 exactly when
the rate is below 45 or above 130, else +4 exactly when below 55 or
above 110, severe checked first so the rules are mutually exclusive;
exactly 45 and exactly 130 do not trigger +8 while 44 and 131 do. -/
theorem hr_modifier_thresholds :
    ∀ h : ℚ, h ≠ 0 →
      hrModifier (some h) =
        (if h < 45 ∨ h > 130 then 8 else if h < 55 ∨ h > 110 then 4 else 0) ∧
      hrModifier (some 45) = 4 ∧ hrModifier (some 130) = 4 ∧
      hrModifier (some 44) = 8 ∧ hrModifier (some 131) = 8 := by
  intro h hne
  refine ⟨?_, by norm_num [hrModifier], by norm_num [hrModifier],
    by norm_num [hrModifier], by norm_num [hrModifier]⟩
  simp [hrModifier, hne]

/-- Witness for C4's amended theorem at heart rate 44. -/
theorem hr_modifier_thresholds_witness :
    hrModifier (some (44 : ℚ)) =
        (if (44 : ℚ) < 45 ∨ (44 : ℚ) > 130 then 8
         else if (44 : ℚ) < 55 ∨ (44 : ℚ) > 110 then 4 else 0) ∧
      hrModifier (some 45) = 4 ∧ hrModifier (some 130) = 4 ∧
      hrModifier (some 44) = 8 ∧ hrModifier (some 131) = 8 :=
  hr_modifier_thresholds 44 (by norm_num)

/-- Counterexample to C5 as stated: "abc/50" parses to fewer than two
numeric parts, yet the hypotension modifier +5 is applied (the code
guards on the part count, not the numeric-part count). -/
theorem bp_numeric_parts_claim_false :
    ¬ (∀ s : String, ((bpParts s).filterMap id).length < 2 → bpModifierStr s = 0) := by
  intro hclaim
  have h5 : bpModifierStr "abc/50" = 5 := by
    have h : bpParts "abc/50" = [none, some 50] := rfl
    norm_num [bpModifierStr, h, bpPartsModifier, nanGE, nanLT]
  have h0 := hclaim "abc/50" (by decide)
  rw [h0] at h5
  norm_num at h5

/-- Claim C5 (amended: the guard counts parts, numeric or not): the
scorer splits on '/' or '-' and trims; if fewer than two parts result
no blood-pressure modifier is applied; the malformed string "abc"
contributes zero modifier and scores exactly as an absent blood
pressure, and the total function raises no exception (it is total by
construction). -/
theorem bp_malformed_graceful :
    (∀ s : String, (splitOnSep s.data).length < 2 → bpModifierStr s = 0) ∧
    (∀ (sy : Symptoms) (hr t : Option ℚ),
      totalScore sy ⟨hr, some "abc", t⟩ = totalScore sy ⟨hr, none, t⟩) ∧
    bpModifier (some "abc") = 0 := by
  have habcStr : bpModifierStr "abc" = 0 := by
    have h : bpParts "abc" = [none] := rfl
    simp [bpModifierStr, h]
  have habc : bpModifier (some "abc") = 0 := by
    simp [bpModifier, habcStr]
  refine ⟨?_, ?_, habc⟩
  · intro s hlen
    have hlen2 : (bpParts s).length < 2 := by simpa [bpParts] using hlen
    unfold bpModifierStr
    rcases h : bpParts s with _ | ⟨x, _ | ⟨y, ys⟩⟩
    · rfl
    · rfl
    · exfalso
      rw [h] at hlen2
      simp only [List.length_cons] at hlen2
      omega
  · intro sy hr t
    simp [totalScore, modifiers, bpModifier, habcStr]

/-- Witness for C5's amended theorem at the string "abc". -/
theorem bp_malformed_graceful_witness :
    bpModifierStr "abc" = 0 :=
  bp_malformed_graceful.1 "abc" (by decide)

/-- Claim C6: for a parsed (systolic, diastolic) pair, systolic ≥180 or
diastolic ≥120 adds +6, else systolic ≥160 or diastolic ≥100 adds +3
(never both), and the independent hypotension rule (+5 when systolic
<85 or diastolic <55) can stack with either; "180/110" adds exactly +6,
"160/100" exactly +3, and "180/50" stacks to +11. -/
theorem bp_modifier_rules :
    ∀ sys dia : ℤ,
      ((sys ≥ 180 ∨ dia ≥ 120) →
        bpPartsModifier (some sys) (some dia) =
          6 + (if sys < 85 ∨ dia < 55 then 5 else 0)) ∧
      (¬ (sys ≥ 180 ∨ dia ≥ 120) → (sys ≥ 160 ∨ dia ≥ 100) →
        bpPartsModifier (some sys) (some dia) =
          3 + (if sys < 85 ∨ dia < 55 then 5 else 0)) ∧
      bpModifierStr "180/110" = 6 ∧
      bpModifierStr "160/100" = 3 ∧
      bpModifierStr "180/50" = 11 := by
  intro sys dia
  have e1 : bpParts "180/110" = [some 180, some 110] := rfl
  have e2 : bpParts "160/100" = [some 160, some 100] := rfl
  have e3 : bpParts "180/50" = [some 180, some 50] := rfl
  refine ⟨?_, ?_, ?_, ?_, ?_⟩
  · intro h1
    have hsev : (nanGE (some sys) 180 || nanGE (some dia) 120) = true := by
      rcases h1 with h | h <;> simp [nanGE, h]
    by_cases h5 : sys < 85 ∨ dia < 55
    · have hlo : (nanLT (some sys) 85 || nanLT (some dia) 55) = true := by
        rcases h5 with h | h <;> simp [nanLT, h]
      simp [bpPartsModifier, hsev, hlo, h5]
    · have hlo : (nanLT (some sys) 85 || nanLT (some dia) 55) = false := by
        push_neg at h5
        simp [nanLT, not_lt.mpr h5.1, not_lt.mpr h5.2]
      simp [bpPartsModifier, hsev, hlo, h5]
  · intro h1 h2
    have hsev : (nanGE (some sys) 180 || nanGE (some dia) 120) = false := by
      push_neg at h1
      simp [nanGE, not_le.mpr (lt_of_not_le (not_le.mpr h1.1)), h1]
    have hmod : (nanGE (some sys) 160 || nanGE (some dia) 100) = true := by
      rcases h2 with h | h <;> simp [nanGE, h]
    by_cases h5 : sys < 85 ∨ dia < 55
    · have hlo : (nanLT (some sys) 85 || nanLT (some dia) 55) = true := by
        rcases h5 with h | h <;> simp [nanLT, h]
      simp [bpPartsModifier, hsev, hmod, hlo, h5]
    · have hlo : (nanLT (some sys) 85 || nanLT (some dia) 55) = false := by
        push_neg at h5
        simp [nanLT, not_lt.mpr h5.1, not_lt.mpr h5.2]
      simp [bpPartsModifier, hsev, hmod, hlo, h5]
  · norm_num [bpModifierStr, e1, bpPartsModifier, nanGE, nanLT]
  · norm_num [bpModifierStr, e2, bpPartsModifier, nanGE, nanLT]
  · norm_num [bpModifierStr, e3, bpPartsModifier, nanGE, nanLT]

/-- Witness for C6 at the hypertensive-crisis reading 180/110. -/
theorem bp_modifier_rules_witness :
    bpPartsModifier (some (180 : ℤ)) (some (110 : ℤ)) =
      6 + (if (180 : ℤ) < 85 ∨ (110 : ℤ) < 55 then 5 else 0) :=
  (bp_modifier_rules 180 110).1 (by norm_num)

/-- Claim C7: the lifecycle transition fails with NotFound when the id
is absent, fails with InvalidTransition when the target precedes the
record's current status (waiting < in-progress < completed), and in
both failure cases the queue is unchanged; in particular requesting
'waiting' on an in-progress record is rejected. -/
theorem transition_failure_modes :
    ∀ (l : List Patient) (id : String) (target : Status),
      ((∀ p ∈ l, p.id ≠ id) → transition l id target = (some .notFound, l)) ∧
      (∀ p : Patient, l.find? (fun q => q.id == id) = some p →
        statusOrder target < statusOrder p.status →
        transition l id target = (some .invalidTransition, l)) ∧
      (∀ e, (transition l id target).1 = some e → (transition l id target).2 = l) ∧
      transition [samplePatient "p1" 2 0 .inProgress] "p1" .waiting =
        (some .invalidTransition, [samplePatient "p1" 2 0 .inProgress]) := by
  intro l id target
  refine ⟨?_, ?_, ?_, by decide⟩
  · intro hab
    have hf : l.find? (fun q => q.id == id) = none := by
      rw [List.find?_eq_none]
      intro x hx
      simpa using hab x hx
    unfold transition
    rw [hf]
  · intro p hp hlt
    unfold transition
    rw [hp]
    simp [hlt]
  · intro e
    unfold transition
    rcases hf : l.find? (fun q => q.id == id) with _ | p
    · rw [hf]
      intro _
      rfl
    · rw [hf]
      by_cases hlt : statusOrder target < statusOrder p.status
      · simp [hlt]
      · simp [hlt]

/-- Witness for C7: the empty queue knows no id. -/
theorem transition_failure_modes_witness :
    transition [] "x" .completed = (some .notFound, []) :=
  (transition_failure_modes [] "x" .completed).1 (by simp)

/-- Claim C8: with the vitals fixed, raising symptom fields never
lowers the computed total score. -/
theorem total_monotone_in_symptoms :
    ∀ (v : Vitals) (s t : Symptoms),
      s.painLevel ≤ t.painLevel → s.breathingDifficulty ≤ t.breathingDifficulty →
      s.consciousnessLevel ≤ t.consciousnessLevel → s.headache ≤ t.headache →
      s.confusion ≤ t.confusion → s.chestPain ≤ t.chestPain →
      s.palpitations ≤ t.palpitations → s.bleeding ≤ t.bleeding →
      s.nausea ≤ t.nausea →
      totalScore s v ≤ totalScore t v := by
  intro v s t h1 h2 h3 h4 h5 h6 h7 h8 h9
  unfold totalScore baseScore
  have hmod : modifiers v ≤ modifiers v := le_refl _
  linarith

/-- Witness for C8: raising breathingDifficulty from 0 to 10. -/
theorem total_monotone_in_symptoms_witness :
    totalScore zeroSymptoms noVitals ≤
      totalScore { zeroSymptoms with breathingDifficulty := 10 } noVitals :=
  total_monotone_in_symptoms noVitals _ _ (le_refl _) (by norm_num [zeroSymptoms])
    (le_refl _) (le_refl _) (le_refl _) (le_refl _) (le_refl _) (le_refl _) (le_refl _)

/-- Counterexample to C9 as stated: CreateTriage does not succeed for
every request with the required fields non-empty and the age in
[0,120] — the spec's own §6 sentence also requires the symptom fields
to lie in [0,10], and §7 makes a symptom value outside [0,10] a
ValidationError, so a request with painLevel = 11 and every other field
valid is rejected. -/
theorem createTriage_success_claim_false :
    ¬ (∀ (req : TriageRequest) (id : String) (arrival : ℤ),
        req.name ≠ "" → req.gender ≠ "" → req.chiefComplaint ≠ "" →
        0 ≤ req.age → req.age ≤ 120 →
        ∃ p, createTriage req id arrival = .ok p) := by
  intro hclaim
  obtain ⟨p, hp⟩ := hclaim badSymptomRequest "PAT-1" 0 (by decide) (by decide)
    (by decide) (by decide) (by decide)
  have hbad : createTriage badSymptomRequest "PAT-1" 0 = .error .symptomOutOfRange := by
    have h3 : ¬ symptomsInRange badSymptomRequest.symptoms := by
      intro h
      have := h.1.2
      norm_num [badSymptomRequest, zeroSymptoms] at this
    unfold createTriage
    rw [if_neg (by simp [badSymptomRequest]), if_neg (by norm_num [badSymptomRequest]),
      if_pos h3]
  rw [hbad] at hp
  exact Except.noConfusion hp

/-- Claim C9 (amended: a symptom field outside [0,10] is also rejected,
and success additionally requires every symptom field within [0,10]):
CreateTriage rejects a request with an empty name, gender or chief
complaint, an age outside [0,120], or a symptom field outside [0,10],
and succeeds for every request with those fields non-empty, the age in
range and the symptoms in range (age 0 is accepted, age above 120 is
rejected); the produced record is waiting and carries the scorer's
priority. -/
theorem createTriage_validation :
    ∀ (req : TriageRequest) (id : String) (arrival : ℤ),
      ((req.name = "" ∨ req.gender = "" ∨ req.chiefComplaint = "" ∨
          req.age < 0 ∨ 120 < req.age ∨ ¬ symptomsInRange req.symptoms) →
        ∃ e, createTriage req id arrival = .error e) ∧
      (req.name ≠ "" → req.gender ≠ "" → req.chiefComplaint ≠ "" →
        0 ≤ req.age → req.age ≤ 120 → symptomsInRange req.symptoms →
        ∃ p, createTriage req id arrival = .ok p ∧ p.status = .waiting ∧
          p.priority = calculatePriority req.symptoms req.vitals) ∧
      createTriage (sampleRequest 121) "PAT-1" 0 = .error .ageOutOfRange := by
  intro req id arrival
  refine ⟨?_, ?_, rfl⟩
  · intro hbad
    unfold createTriage
    by_cases h1 : req.name = "" ∨ req.gender = "" ∨ req.chiefComplaint = ""
    · rw [if_pos h1]
      exact ⟨_, rfl⟩
    · rw [if_neg h1]
      by_cases h2 : req.age < 0 ∨ 120 < req.age
      · rw [if_pos h2]
        exact ⟨_, rfl⟩
      · have h3 : ¬ symptomsInRange req.symptoms := by tauto
        rw [if_neg h2, if_pos h3]
        exact ⟨_, rfl⟩
  · intro hn hg hc h0 h120 hsym
    unfold createTriage
    rw [if_neg (by tauto), if_neg (by omega), if_neg (not_not.mpr hsym)]
    exact ⟨_, rfl, rfl, rfl⟩

/-- Witness for C9's amended theorem: a fully-populated request at the
boundary age 0 with in-range symptoms is accepted. -/
theorem createTriage_validation_witness :
    ∃ p, createTriage (sampleRequest 0) "PAT-1" 0 = .ok p ∧ p.status = .waiting ∧
      p.priority = calculatePriority (sampleRequest 0).symptoms (sampleRequest 0).vitals :=
  (createTriage_validation (sampleRequest 0) "PAT-1" 0).2.1 (by decide) (by decide)
    (by decide) (by decide) (by decide)
    (by norm_num [symptomsInRange, sampleRequest, zeroSymptoms])

/-- Claim C10: a present heart rate of exactly 0 triggers neither the
+8 nor the +4 modifier — the truthiness guard treats it exactly like an
absent heart rate, even though 0 is below the severe threshold 45. -/
theorem hr_zero_treated_as_absent :
    (∀ (s : Symptoms) (bp : Option String) (t : Option ℚ),
      totalScore s ⟨some 0, bp, t⟩ = totalScore s ⟨none, bp, t⟩) ∧
    hrModifier (some 0) = 0 ∧ (0 : ℚ) < 45 := by
  refine ⟨?_, by norm_num [hrModifier], by norm_num⟩
  intro s bp t
  simp [totalScore, modifiers, hrModifier]

end Triage
